import Mathlib

set_option maxRecDepth 100000

/-!
Verification development for the SX1272 LoRa transceiver driver
(drivers/sx1272/sx1272.c).

The driver is embedded shallowly: the device (registers, GPIO interrupt
enables, RF-switch level, logical state, timers, settings record) is a
Lean structure, and each C function becomes a pure state transformer.
Machine bytes are Nat values reduced modulo 256 where the C types force
it; signed quantities (transmit power, RSSI, SNR) are Int.

Register addresses and bit constants come from the SX1272 register-map
headers (include/sx1272_regs_lora.h, include/sx1272_regs_fsk.h), which
are not part of the analysed sources; their values are the chip constants
from the Semtech SX1272 register map that those headers transcribe.
-/

namespace SX1272

/-! Register addresses (SX1272 register map). -/

def REG_OPMODE : Nat := 0x01
def REG_PACONFIG : Nat := 0x09
def REG_PADAC : Nat := 0x5A
def REG_LR_LNA : Nat := 0x0C
def REG_LR_FIFOADDRPTR : Nat := 0x0D
def REG_LR_FIFOTXBASEADDR : Nat := 0x0E
def REG_LR_FIFORXBASEADDR : Nat := 0x0F
def REG_LR_FIFORXCURRENTADDR : Nat := 0x10
def REG_LR_IRQFLAGSMASK : Nat := 0x11
def REG_LR_IRQFLAGS : Nat := 0x12
def REG_LR_RXNBBYTES : Nat := 0x13
def REG_LR_PKTSNRVALUE : Nat := 0x19
def REG_LR_PKTRSSIVALUE : Nat := 0x1A
def REG_LR_RSSIVALUE : Nat := 0x1B
def REG_LR_HOPCHANNEL : Nat := 0x1C
def REG_LR_MODEMCONFIG1 : Nat := 0x1D
def REG_LR_MODEMCONFIG2 : Nat := 0x1E
def REG_LR_SYMBTIMEOUTLSB : Nat := 0x1F
def REG_LR_PREAMBLEMSB : Nat := 0x20
def REG_LR_PREAMBLELSB : Nat := 0x21
def REG_LR_PAYLOADLENGTH : Nat := 0x22
def REG_LR_HOPPERIOD : Nat := 0x24
def REG_LR_DETECTOPTIMIZE : Nat := 0x31
def REG_LR_DETECTIONTHRESHOLD : Nat := 0x37
def REG_DIOMAPPING1 : Nat := 0x40
def REG_DIOMAPPING2 : Nat := 0x41
def REG_LR_PLLHOP : Nat := 0x4B

/-! Operating-mode register bit constants. -/

def RF_OPMODE_MASK : Nat := 0xF8
def RF_OPMODE_SLEEP : Nat := 0x00
def RF_OPMODE_STANDBY : Nat := 0x01
def RF_OPMODE_TRANSMITTER : Nat := 0x03
def RF_OPMODE_RECEIVER : Nat := 0x05
def RFLR_OPMODE_RECEIVER : Nat := 0x05
def RFLR_OPMODE_RECEIVER_SINGLE : Nat := 0x06
def RFLR_OPMODE_CAD : Nat := 0x07
def RFLR_OPMODE_LONGRANGEMODE_MASK : Nat := 0x7F
def RFLR_OPMODE_LONGRANGEMODE_ON : Nat := 0x80
def RFLR_OPMODE_LONGRANGEMODE_OFF : Nat := 0x00

/-! Power-amplifier configuration bit constants. -/

def RF_PACONFIG_PASELECT_MASK : Nat := 0x7F
def RF_PACONFIG_PASELECT_PABOOST : Nat := 0x80
def RF_PACONFIG_PASELECT_RFO : Nat := 0x00
def RFLR_PACONFIG_OUTPUTPOWER_MASK : Nat := 0xF0
def RF_PADAC_20DBM_MASK : Nat := 0xF8
def RFLR_PADAC_20DBM_ON : Nat := 0x07
def RFLR_PADAC_20DBM_OFF : Nat := 0x04
def SX1272_RF_MID_BAND_THRESH : Nat := 525000000

/-! LoRa IRQ flag bits (RegIrqFlags). -/

def RFLR_IRQFLAGS_CADDETECTED : Nat := 0x01
def RFLR_IRQFLAGS_FHSSCHANGEDCHANNEL : Nat := 0x02
def RFLR_IRQFLAGS_CADDONE : Nat := 0x04
def RFLR_IRQFLAGS_TXDONE : Nat := 0x08
def RFLR_IRQFLAGS_VALIDHEADER : Nat := 0x10
def RFLR_IRQFLAGS_PAYLOADCRCERROR : Nat := 0x20
def RFLR_IRQFLAGS_RXDONE : Nat := 0x40
def RFLR_IRQFLAGS_RXTIMEOUT : Nat := 0x80

/-- Modelled from the spec: the header defining this constant is not among
the analysed sources.  The spec states that the DIO0 receive handler checks
the CRC-error flag of the IRQ-flags register, so the mask is taken to select
exactly that flag bit, making the comparison
(flags AND mask) = RFLR_IRQFLAGS_PAYLOADCRCERROR a test of the CRC flag. -/
def RFLR_IRQFLAGS_PAYLOADCRCERROR_MASK : Nat := 0x20

/-! Modem-configuration register bit constants. -/

def RFLR_MODEMCONFIG1_BW_MASK : Nat := 0x3F
def RFLR_MODEMCONFIG1_CODINGRATE_MASK : Nat := 0xC7
def RFLR_MODEMCONFIG1_IMPLICITHEADER_MASK : Nat := 0xFB
def RFLR_MODEMCONFIG1_RXPAYLOADCRC_MASK : Nat := 0xFD
def RFLR_MODEMCONFIG1_LOWDATARATEOPTIMIZE_MASK : Nat := 0xFE
def RFLR_MODEMCONFIG2_SF_MASK : Nat := 0x0F
def RFLR_MODEMCONFIG2_SYMBTIMEOUTMSB_MASK : Nat := 0xFC
def RFLR_MODEMCONFIG2_AGCAUTO_MASK : Nat := 0xFB
def RFLR_MODEMCONFIG2_AGCAUTO_ON : Nat := 0x04
def RFLR_LNA_BOOST_MASK : Nat := 0xFC
def RFLR_LNA_BOOST_ON : Nat := 0x03
def RFLR_PLLHOP_FASTHOP_MASK : Nat := 0x7F
def RFLR_PLLHOP_FASTHOP_ON : Nat := 0x80
def RFLR_DETECTIONOPTIMIZE_SF7_TO_SF12 : Nat := 0x03
def RFLR_DETECTIONTHRESH_SF7_TO_SF12 : Nat := 0x0A
def RFLR_HOPCHANNEL_CHANNEL_MASK : Nat := 0x3F

/-- LoRa bandwidth enumerator values (sx1272.h): 0 = 125 kHz, 1 = 250 kHz,
2 = 500 kHz, matching the bandwidth switch in sx1272_get_time_on_air. -/
def SX1272_BW_125_KHZ : Nat := 0
def SX1272_BW_250_KHZ : Nat := 1
def SX1272_BW_500_KHZ : Nat := 2

/-- Spreading-factor enumerator values are the numeric spreading factors
6..12 (the code shifts them directly into the SF register field). -/
def SX1272_SF11 : Nat := 11
def SX1272_SF12 : Nat := 12

def RSSI_OFFSET : Int := -139

/-- Logical radio state of the driver (sx1272_radio_state_t). -/
inductive RadioState
  | RF_IDLE
  | RF_RX_RUNNING
  | RF_TX_RUNNING
  | RF_CAD
deriving DecidableEq, Repr

/-- Modem selector (sx1272_radio_modems_t). -/
inductive Modem
  | FSK
  | LORA
deriving DecidableEq, Repr

/-- Driver events (sx1272_event_type_t) passed to the application callback. -/
inductive Event
  | TX_DONE
  | TX_TIMEOUT
  | RX_DONE
  | RX_ERROR_CRC
  | RX_TIMEOUT
  | FHSS_CHANGE_CHANNEL
  | CAD_DONE
  | CAD_DETECTED
deriving DecidableEq, Repr

/-- LoRa settings record (sx1272_lora_settings_t). -/
structure LoraSettings where
  bandwidth : Nat
  datarate : Nat
  coderate : Nat
  preamble_len : Nat
  implicit_header : Bool
  crc_on : Bool
  freq_hop_on : Bool
  hop_period : Nat
  iq_inverted : Bool
  power : Int
  tx_timeout : Nat
  rx_timeout : Nat
  rx_continuous : Bool
  low_datarate_optimize : Nat
  payload_len : Nat
deriving DecidableEq, Repr

/-- Last received packet (sx1272_rx_packet_t). -/
structure RxPacket where
  snr_value : Nat
  rssi_value : Int
  size : Nat
  content : List Nat
deriving DecidableEq, Repr

/-- Device state (sx1272_t together with the chip state it manipulates):
the chip register file, the chip FIFO contents visible to burst reads, the
modem selector, the LoRa settings record, the logical radio state, the
configured channel frequency, which DIO pins are connected
(pin different from GPIO_UNDEF) and whether the GPIO interrupt callback of
each line is currently enabled, the RF-switch line, the two deadline
timers (modelled by their armed flags), the cached CAD result and hop
channel, and the last received packet. -/
structure Dev where
  regs : Nat → Nat
  fifo : Nat → Nat
  modem : Modem
  lora : LoraSettings
  state : RadioState
  channel : Nat
  dio0_conn : Bool
  dio1_conn : Bool
  dio2_conn : Bool
  dio3_conn : Bool
  dio4_conn : Bool
  dio5_conn : Bool
  dio0_en : Bool
  dio1_en : Bool
  dio2_en : Bool
  dio3_en : Bool
  dio4_en : Bool
  dio5_en : Bool
  rfswitch_conn : Bool
  rfswitch_active_low : Bool
  rfswitch_level : Bool
  tx_timer_armed : Bool
  rx_timer_armed : Bool
  is_last_cad_success : Bool
  last_channel : Nat
  last_packet : RxPacket

/-- Single-byte register read (sx1272_reg_read): the C function returns a
uint8_t, so the value is a byte. -/
def sx1272_reg_read (dev : Dev) (addr : Nat) : Nat :=
  dev.regs addr % 256

/-- Single-byte register write (sx1272_reg_write): the written value is a
uint8_t.  Modelled from the spec for the one register whose hardware
semantics the driver relies on: writing a set bit to the LoRa IRQ-flags
register clears that flag (the operations the spec calls clearing the
receive-done / CRC / hop / CAD flags); every other register stores the
written byte. -/
def regWrite (r : Nat → Nat) (addr v : Nat) : Nat → Nat :=
  fun x =>
    if x = addr then
      if addr = REG_LR_IRQFLAGS then r addr % 256 &&& (255 ^^^ v % 256)
      else v % 256
    else r x

/-- Convenience: apply a register write to a device. -/
def devWrite (dev : Dev) (addr v : Nat) : Dev :=
  { dev with regs := regWrite dev.regs addr v }

/-- Helper for C integer promotion of flags: a Bool used as 0/1. -/
def bit (b : Bool) : Nat := if b then 1 else 0

/-- Lines 865-908 of sx1272_set_op_mode: the DIO interrupt-enable /
RF-switch side effects attached to the requested mode.  Entering sleep
disables the callbacks of the connected DIO0..DIO3 lines and drives the
RF switch to its disabled bias (set when active-low, cleared otherwise);
any other mode enables DIO0..DIO3 and drives the enabled bias. -/
def applyModeIrqRfswitch (dev : Dev) (op_mode : Nat) : Dev :=
  if op_mode = RF_OPMODE_SLEEP then
    { dev with
      dio0_en := if dev.dio0_conn then false else dev.dio0_en
      dio1_en := if dev.dio1_conn then false else dev.dio1_en
      dio2_en := if dev.dio2_conn then false else dev.dio2_en
      dio3_en := if dev.dio3_conn then false else dev.dio3_en
      rfswitch_level :=
        if dev.rfswitch_conn then
          (if dev.rfswitch_active_low then true else false)
        else dev.rfswitch_level }
  else
    { dev with
      dio0_en := if dev.dio0_conn then true else dev.dio0_en
      dio1_en := if dev.dio1_conn then true else dev.dio1_en
      dio2_en := if dev.dio2_conn then true else dev.dio2_en
      dio3_en := if dev.dio3_conn then true else dev.dio3_en
      rfswitch_level :=
        if dev.rfswitch_conn then
          (if dev.rfswitch_active_low then false else true)
        else dev.rfswitch_level }

/-- sx1272_set_op_mode (lines 854-909).  Returns the new device state and
the list of (address, byte) register writes the call performed, so that
write suppression is observable.  The static op_mode_prev variable is
assigned before every use, so it carries no state between calls. -/
def sx1272_set_op_mode (dev : Dev) (op_mode : Nat) : Dev × List (Nat × Nat) :=
  let op_mode_prev := sx1272_reg_read dev REG_OPMODE &&& (255 ^^^ RF_OPMODE_MASK)
  let w :=
    if op_mode ≠ op_mode_prev then
      [(REG_OPMODE, ((op_mode_prev &&& RF_OPMODE_MASK) ||| op_mode) % 256)]
    else []
  let dev1 :=
    if op_mode ≠ op_mode_prev then
      devWrite dev REG_OPMODE ((op_mode_prev &&& RF_OPMODE_MASK) ||| op_mode)
    else dev
  (applyModeIrqRfswitch dev1 op_mode, w)

/-- sx1272_set_modem (lines 292-323): select LoRa or FSK, forcing sleep and
rewriting the long-range-mode bit, then program the DIO mappings. -/
def sx1272_set_modem (dev : Dev) (modem : Modem) : Dev :=
  let dev := { dev with modem := modem }
  match modem with
  | Modem.LORA =>
    let dev := (sx1272_set_op_mode dev RF_OPMODE_SLEEP).1
    let dev := devWrite dev REG_OPMODE
      ((sx1272_reg_read dev REG_OPMODE &&& RFLR_OPMODE_LONGRANGEMODE_MASK)
        ||| RFLR_OPMODE_LONGRANGEMODE_ON)
    let dev := devWrite dev REG_DIOMAPPING1 0x00
    devWrite dev REG_DIOMAPPING2 0x10
  | Modem.FSK =>
    let dev := (sx1272_set_op_mode dev RF_OPMODE_SLEEP).1
    let dev := devWrite dev REG_OPMODE
      ((sx1272_reg_read dev REG_OPMODE &&& RFLR_OPMODE_LONGRANGEMODE_MASK)
        ||| RFLR_OPMODE_LONGRANGEMODE_OFF)
    devWrite dev REG_DIOMAPPING1 0x00

/-- sx1272_get_pa_select (lines 365-373): the boosted amplifier path is
chosen below the mid-band threshold. -/
def sx1272_get_pa_select (channel : Nat) : Nat :=
  if channel < SX1272_RF_MID_BAND_THRESH then RF_PACONFIG_PASELECT_PABOOST
  else RF_PACONFIG_PASELECT_RFO

/-- setup_power_amplifier (lines 375-421): select the amplifier path from
the channel frequency, decide the +20 dBm stage from the requested power,
clamp the stored power to the range of the chosen path and encode it into
the low nibble of RegPaConfig.  The two C casts (int to uint16_t, then to
uint8_t masked to the nibble) appear as the mod 65536 / land 0x0F steps. -/
def setup_power_amplifier (dev : Dev) : Dev :=
  let pa_config := sx1272_reg_read dev REG_PACONFIG
  let pa_dac := sx1272_reg_read dev REG_PADAC
  let pa_config := (pa_config &&& RF_PACONFIG_PASELECT_MASK) ||| sx1272_get_pa_select dev.channel
  if (pa_config &&& RF_PACONFIG_PASELECT_PABOOST) = RF_PACONFIG_PASELECT_PABOOST then
    let pa_dac :=
      if dev.lora.power > 17 then (pa_dac &&& RF_PADAC_20DBM_MASK) ||| RFLR_PADAC_20DBM_ON
      else (pa_dac &&& RF_PADAC_20DBM_MASK) ||| RFLR_PADAC_20DBM_OFF
    if (pa_dac &&& RFLR_PADAC_20DBM_ON) = RFLR_PADAC_20DBM_ON then
      let power : Int := if dev.lora.power < 5 then 5 else dev.lora.power
      let power : Int := if power > 20 then 20 else power
      let pa_config := (pa_config &&& RFLR_PACONFIG_OUTPUTPOWER_MASK)
        ||| (((power - 5) % 65536).toNat &&& 0x0F)
      let dev := { dev with lora := { dev.lora with power := power } }
      let dev := devWrite dev REG_PACONFIG pa_config
      devWrite dev REG_PADAC pa_dac
    else
      let power : Int := if dev.lora.power < 2 then 2 else dev.lora.power
      let power : Int := if power > 17 then 17 else power
      let pa_config := (pa_config &&& RFLR_PACONFIG_OUTPUTPOWER_MASK)
        ||| (((power - 2) % 65536).toNat &&& 0x0F)
      let dev := { dev with lora := { dev.lora with power := power } }
      let dev := devWrite dev REG_PACONFIG pa_config
      devWrite dev REG_PADAC pa_dac
  else
    let power : Int := if dev.lora.power < -1 then -1 else dev.lora.power
    let power : Int := if power > 14 then 14 else power
    let pa_config := (pa_config &&& RFLR_PACONFIG_OUTPUTPOWER_MASK)
      ||| (((power + 1) % 65536).toNat &&& 0x0F)
    let dev := { dev with lora := { dev.lora with power := power } }
    let dev := devWrite dev REG_PACONFIG pa_config
    devWrite dev REG_PADAC pa_dac

/-- sx1272_configure_lora (lines 423-494): force the LoRa modem, copy the
settings record when one is given, recompute the low-datarate-optimize
flag, program the modem-configuration registers, run the PA policy, then
force LNA boost, AGC and the detection constants.  The literal 0xFFFFFF03
is the 32-bit complement of RFLR_MODEMCONFIG2_SYMBTIMEOUTMSB_MASK used by
the C expression. -/
def sx1272_configure_lora (dev : Dev) (settings : Option LoraSettings) : Dev :=
  let dev := sx1272_set_modem dev Modem.LORA
  let dev :=
    match settings with
    | some s => { dev with lora := s }
    | none => dev
  let dev := { dev with lora := { dev.lora with low_datarate_optimize :=
    if ((dev.lora.bandwidth = SX1272_BW_125_KHZ
          ∧ (dev.lora.datarate = SX1272_SF11 ∨ dev.lora.datarate = SX1272_SF12))
        ∨ (dev.lora.bandwidth = SX1272_BW_250_KHZ ∧ dev.lora.datarate = SX1272_SF12))
    then 0x01 else 0x00 } }
  let dev := devWrite dev REG_LR_MODEMCONFIG1
    ((sx1272_reg_read dev REG_LR_MODEMCONFIG1
        &&& RFLR_MODEMCONFIG1_BW_MASK
        &&& RFLR_MODEMCONFIG1_CODINGRATE_MASK
        &&& RFLR_MODEMCONFIG1_IMPLICITHEADER_MASK
        &&& RFLR_MODEMCONFIG1_RXPAYLOADCRC_MASK
        &&& RFLR_MODEMCONFIG1_LOWDATARATEOPTIMIZE_MASK)
      ||| (dev.lora.bandwidth <<< 6)
      ||| (dev.lora.coderate <<< 3)
      ||| (bit dev.lora.implicit_header <<< 2)
      ||| (bit dev.lora.crc_on <<< 1)
      ||| dev.lora.low_datarate_optimize)
  let dev := devWrite dev REG_LR_MODEMCONFIG2
    ((sx1272_reg_read dev REG_LR_MODEMCONFIG2
        &&& RFLR_MODEMCONFIG2_SF_MASK
        &&& RFLR_MODEMCONFIG2_SYMBTIMEOUTMSB_MASK)
      ||| (dev.lora.datarate <<< 4)
      ||| ((dev.lora.rx_timeout >>> 8) &&& 0xFFFFFF03))
  let dev := devWrite dev REG_LR_SYMBTIMEOUTLSB (dev.lora.rx_timeout &&& 0xFF)
  let dev := devWrite dev REG_LR_PREAMBLEMSB ((dev.lora.preamble_len >>> 8) &&& 0xFF)
  let dev := devWrite dev REG_LR_PREAMBLELSB (dev.lora.preamble_len &&& 0xFF)
  let dev :=
    if dev.lora.implicit_header then devWrite dev REG_LR_PAYLOADLENGTH dev.lora.payload_len
    else dev
  let dev :=
    if dev.lora.freq_hop_on then
      let dev := devWrite dev REG_LR_PLLHOP
        ((sx1272_reg_read dev REG_LR_PLLHOP &&& RFLR_PLLHOP_FASTHOP_MASK)
          ||| RFLR_PLLHOP_FASTHOP_ON)
      devWrite dev REG_LR_HOPPERIOD dev.lora.hop_period
    else dev
  let dev := setup_power_amplifier dev
  let dev := devWrite dev REG_LR_LNA
    ((sx1272_reg_read dev REG_LR_LNA &&& RFLR_LNA_BOOST_MASK) ||| RFLR_LNA_BOOST_ON)
  let dev := devWrite dev REG_LR_MODEMCONFIG2
    ((sx1272_reg_read dev REG_LR_MODEMCONFIG2 &&& RFLR_MODEMCONFIG2_AGCAUTO_MASK)
      ||| RFLR_MODEMCONFIG2_AGCAUTO_ON)
  let dev := devWrite dev REG_LR_DETECTOPTIMIZE RFLR_DETECTIONOPTIMIZE_SF7_TO_SF12
  devWrite dev REG_LR_DETECTIONTHRESHOLD RFLR_DETECTIONTHRESH_SF7_TO_SF12

/-- sx1272_configure_lora_bw (lines 496-500): set the bandwidth field, then
re-run the full configuration pass with a NULL settings pointer. -/
def sx1272_configure_lora_bw (dev : Dev) (bw : Nat) : Dev :=
  sx1272_configure_lora { dev with lora := { dev.lora with bandwidth := bw } } none

/-- sx1272_configure_lora_sf (lines 502-506). -/
def sx1272_configure_lora_sf (dev : Dev) (sf : Nat) : Dev :=
  sx1272_configure_lora { dev with lora := { dev.lora with datarate := sf } } none

/-- sx1272_configure_lora_cr (lines 508-512). -/
def sx1272_configure_lora_cr (dev : Dev) (cr : Nat) : Dev :=
  sx1272_configure_lora { dev with lora := { dev.lora with coderate := cr } } none

/-- sx1272_get_time_on_air (lines 514-570).  The C double arithmetic is
modelled exactly over the rationals: every intermediate value (symbol
duration, preamble time, ceil of the payload-symbol ratio, total time) is
a rational number, and the final conversion floor(t times 1e6 + 0.999) is
the integer floor.  4.25 is 17/4 and 0.999 is 999/1000.  The FSK case of
the switch falls through with air_time = 0. -/
def sx1272_get_time_on_air (s : LoraSettings) (modem : Modem) (pkt_len : Nat) : Int :=
  match modem with
  | Modem.FSK => 0
  | Modem.LORA =>
    let bw : ℚ :=
      if s.bandwidth = 0 then 125000
      else if s.bandwidth = 1 then 250000
      else if s.bandwidth = 2 then 500000
      else 0
    let rs : ℚ := bw / ((2 : ℚ) ^ s.datarate)
    let ts : ℚ := 1 / rs
    let t_preamble : ℚ := ((s.preamble_len : ℚ) + 17/4) * ts
    let num : Int := 8 * (pkt_len : Int) - 4 * (s.datarate : Int) + 28
      + 16 * (if s.crc_on then 1 else 0) - (if s.implicit_header then 0 else 20)
    let den : Int := 4 * (s.datarate : Int)
      - (if s.low_datarate_optimize > 0 then 2 else 0)
    let tmp : ℚ := (Int.ceil ((num : ℚ) / (den : ℚ)) : ℚ) * ((s.coderate : ℚ) + 4)
    let n_payload : ℚ := 8 + (if tmp > 0 then tmp else 0)
    let t_payload : ℚ := n_payload * ts
    let t_on_air : ℚ := t_preamble + t_payload
    Int.floor (t_on_air * 1000000 + 999/1000)

/-- Time-on-air formula exactly as the specification words it, for
comparison with the code: identical to sx1272_get_time_on_air except that
the payload-symbol denominator is 4 times (SF minus 2 times the
low-datarate-optimize flag). -/
def get_time_on_air_spec (s : LoraSettings) (modem : Modem) (pkt_len : Nat) : Int :=
  match modem with
  | Modem.FSK => 0
  | Modem.LORA =>
    let bw : ℚ :=
      if s.bandwidth = 0 then 125000
      else if s.bandwidth = 1 then 250000
      else if s.bandwidth = 2 then 500000
      else 0
    let rs : ℚ := bw / ((2 : ℚ) ^ s.datarate)
    let ts : ℚ := 1 / rs
    let t_preamble : ℚ := ((s.preamble_len : ℚ) + 17/4) * ts
    let num : Int := 8 * (pkt_len : Int) - 4 * (s.datarate : Int) + 28
      + 16 * (if s.crc_on then 1 else 0) - (if s.implicit_header then 0 else 20)
    let den : Int := 4 * ((s.datarate : Int)
      - 2 * (if s.low_datarate_optimize > 0 then 1 else 0))
    let tmp : ℚ := (Int.ceil ((num : ℚ) / (den : ℚ)) : ℚ) * ((s.coderate : ℚ) + 4)
    let n_payload : ℚ := 8 + (if tmp > 0 then tmp else 0)
    let t_payload : ℚ := n_payload * ts
    let t_on_air : ℚ := t_preamble + t_payload
    Int.floor (t_on_air * 1000000 + 999/1000)

/-! Interrupt handlers run by the DIO worker task.  Each handler returns
the new device state and the list of driver events passed to send_event
(which forwards each one to the registered application callback). -/

/-- The TX deadline-timer callback _on_tx_timeout (lines 137-143): it only
sends the TX-timeout event. -/
def on_tx_timeout_timer (dev : Dev) : Dev × List Event :=
  (dev, [Event.TX_TIMEOUT])

/-- The RX deadline-timer callback _on_rx_timeout (lines 145-151): it only
sends the RX-timeout event. -/
def on_rx_timeout_timer (dev : Dev) : Dev × List Event :=
  (dev, [Event.RX_TIMEOUT])

/-- sx1272_on_dio0 (lines 1040-1124): receive-done / CRC-error / send-done
handling. -/
def sx1272_on_dio0 (dev : Dev) : Dev × List Event :=
  match dev.state with
  | RadioState.RF_RX_RUNNING =>
    match dev.modem with
    | Modem.LORA =>
      let dev := devWrite dev REG_LR_IRQFLAGS RFLR_IRQFLAGS_RXDONE
      let irq_flags := sx1272_reg_read dev REG_LR_IRQFLAGS
      if (irq_flags &&& RFLR_IRQFLAGS_PAYLOADCRCERROR_MASK) = RFLR_IRQFLAGS_PAYLOADCRCERROR then
        let dev := devWrite dev REG_LR_IRQFLAGS RFLR_IRQFLAGS_PAYLOADCRCERROR
        let dev := if !dev.lora.rx_continuous then { dev with state := RadioState.RF_IDLE } else dev
        let dev := { dev with rx_timer_armed := false }
        (dev, [Event.RX_ERROR_CRC])
      else
        let snr_raw := sx1272_reg_read dev REG_LR_PKTSNRVALUE
        let snr : Int :=
          if snr_raw &&& 0x80 ≠ 0 then
            -((((255 ^^^ snr_raw) + 1) &&& 0xFF) >>> 2 : Nat)
          else ((snr_raw &&& 0xFF) >>> 2 : Nat)
        let rssi : Int := sx1272_reg_read dev REG_LR_PKTRSSIVALUE
        let rssi_value : Int :=
          if snr < 0 then RSSI_OFFSET + rssi + rssi / 16 + snr
          else RSSI_OFFSET + rssi + rssi / 16
        let size := sx1272_reg_read dev REG_LR_RXNBBYTES
        let dev := if !dev.lora.rx_continuous then { dev with state := RadioState.RF_IDLE } else dev
        let dev := { dev with rx_timer_armed := false }
        let last_rx_addr := sx1272_reg_read dev REG_LR_FIFORXCURRENTADDR
        let dev := devWrite dev REG_LR_FIFOADDRPTR last_rx_addr
        let content := (List.range size).map (fun i => dev.fifo (last_rx_addr + i))
        let dev := { dev with last_packet :=
          { snr_value := snr_raw, rssi_value := rssi_value, size := size, content := content } }
        (dev, [Event.RX_DONE])
    | _ => (dev, [])
  | RadioState.RF_TX_RUNNING =>
    let dev := { dev with tx_timer_armed := false }
    let dev := devWrite dev REG_LR_IRQFLAGS RFLR_IRQFLAGS_TXDONE
    let dev := { dev with state := RadioState.RF_IDLE }
    (dev, [Event.TX_DONE])
  | _ => (dev, [])

/-- sx1272_on_dio1 (lines 1126-1150): RX timeout reported on the chip DIO1
line while a LoRa receive is running. -/
def sx1272_on_dio1 (dev : Dev) : Dev × List Event :=
  match dev.state with
  | RadioState.RF_RX_RUNNING =>
    match dev.modem with
    | Modem.LORA =>
      let dev := { dev with rx_timer_armed := false }
      let dev := { dev with state := RadioState.RF_IDLE }
      (dev, [Event.RX_TIMEOUT])
    | _ => (dev, [])
  | _ => (dev, [])

/-- sx1272_on_dio2 (lines 1152-1194): frequency-hop channel change, in RX
or TX, when hopping is enabled. -/
def sx1272_on_dio2 (dev : Dev) : Dev × List Event :=
  match dev.state with
  | RadioState.RF_RX_RUNNING | RadioState.RF_TX_RUNNING =>
    match dev.modem with
    | Modem.LORA =>
      if dev.lora.freq_hop_on then
        let dev := devWrite dev REG_LR_IRQFLAGS RFLR_IRQFLAGS_FHSSCHANGEDCHANNEL
        let dev := { dev with
          last_channel := sx1272_reg_read dev REG_LR_HOPCHANNEL &&& RFLR_HOPCHANNEL_CHANNEL_MASK }
        (dev, [Event.FHSS_CHANGE_CHANNEL])
      else (dev, [])
    | _ => (dev, [])
  | _ => (dev, [])

/-- sx1272_on_dio3 (lines 1196-1215): clear both CAD flags, then read the
flag register back to cache whether a channel activity was detected, and
send CadDone. -/
def sx1272_on_dio3 (dev : Dev) : Dev × List Event :=
  match dev.modem with
  | Modem.FSK => (dev, [])
  | Modem.LORA =>
    let dev := devWrite dev REG_LR_IRQFLAGS
      (RFLR_IRQFLAGS_CADDETECTED ||| RFLR_IRQFLAGS_CADDONE)
    let dev := { dev with is_last_cad_success :=
      (sx1272_reg_read dev REG_LR_IRQFLAGS &&& RFLR_IRQFLAGS_CADDETECTED)
        = RFLR_IRQFLAGS_CADDETECTED }
    (dev, [Event.CAD_DONE])

/-- sx1272_on_dio4 (lines 1218-1237): identical register handling to the
DIO3 handler, but sends CadDetected. -/
def sx1272_on_dio4 (dev : Dev) : Dev × List Event :=
  match dev.modem with
  | Modem.FSK => (dev, [])
  | Modem.LORA =>
    let dev := devWrite dev REG_LR_IRQFLAGS
      (RFLR_IRQFLAGS_CADDETECTED ||| RFLR_IRQFLAGS_CADDONE)
    let dev := { dev with is_last_cad_success :=
      (sx1272_reg_read dev REG_LR_IRQFLAGS &&& RFLR_IRQFLAGS_CADDETECTED)
        = RFLR_IRQFLAGS_CADDETECTED }
    (dev, [Event.CAD_DETECTED])

/-- sx1272_on_dio5 (lines 1239-1242): reserved, no-op. -/
def sx1272_on_dio5 (dev : Dev) : Dev × List Event :=
  (dev, [])

/-- Clamp the PA policy applies to the stored transmit power, per amplifier
path: boosted path with the +20 dBm stage on clamps to [5, 20], with the
stage off to [2, 17]; the RF-output path clamps to [-1, 14]. -/
def paClampedPower (channel : Nat) (power : Int) : Int :=
  if channel < SX1272_RF_MID_BAND_THRESH then
    if power > 17 then max 5 (min 20 power) else max 2 (min 17 power)
  else max (-1) (min 14 power)

/-! Concrete fixtures used by the closed theorems below. -/

/-- A representative LoRa settings record. -/
def exampleSettings : LoraSettings :=
  { bandwidth := 0, datarate := 12, coderate := 1, preamble_len := 8,
    implicit_header := false, crc_on := true, freq_hop_on := false,
    hop_period := 0, iq_inverted := false, power := 14, tx_timeout := 1000,
    rx_timeout := 100, rx_continuous := false, low_datarate_optimize := 1,
    payload_len := 0 }

def examplePacket : RxPacket :=
  { snr_value := 0, rssi_value := 0, size := 0, content := [] }

/-- A fully connected device in LoRa mode, idle, all DIO callbacks enabled. -/
def baseDev : Dev :=
  { regs := fun _ => 0, fifo := fun _ => 0, modem := Modem.LORA,
    lora := exampleSettings, state := RadioState.RF_IDLE, channel := 868000000,
    dio0_conn := true, dio1_conn := true, dio2_conn := true, dio3_conn := true,
    dio4_conn := true, dio5_conn := true,
    dio0_en := true, dio1_en := true, dio2_en := true, dio3_en := true,
    dio4_en := true, dio5_en := true,
    rfswitch_conn := true, rfswitch_active_low := false, rfswitch_level := true,
    tx_timer_armed := false, rx_timer_armed := false,
    is_last_cad_success := false, last_channel := 0, last_packet := examplePacket }

/-- Device whose operating-mode register reads 0x80: long-range mode on,
mode field Sleep. -/
def devC1 : Dev := { baseDev with regs := fun _ => 0x80 }

/-- Device with DIO4 connected and its callback enabled, current mode
bits 0x05 (Receiver). -/
def devC3 : Dev := { baseDev with regs := fun _ => 0x85 }

/-- Device in the middle of a transmission with the TX deadline timer
armed. -/
def devC4 : Dev :=
  { baseDev with state := RadioState.RF_TX_RUNNING, tx_timer_armed := true }

/-- Device in a running single receive with the RX timer armed and the
chip IRQ flags showing receive-done plus payload-CRC-error. -/
def devC4w : Dev :=
  { baseDev with
    state := RadioState.RF_RX_RUNNING
    rx_timer_armed := true
    regs := fun a => if a = REG_LR_IRQFLAGS then 0x60 else 0 }

/-- Device whose operating-mode register reads 0x81: long-range mode on,
mode field Standby. -/
def devC8 : Dev := { baseDev with regs := fun _ => 0x81 }

/-- Device that has just completed a channel-activity detection with
activity detected: both CAD flags are set in the IRQ-flags register. -/
def devC9 : Dev :=
  { baseDev with regs := fun a => if a = REG_LR_IRQFLAGS then
      RFLR_IRQFLAGS_CADDETECTED ||| RFLR_IRQFLAGS_CADDONE else 0 }

/-- Settings for the time-on-air divergence: 125 kHz, SF12, coding rate 1,
preamble 8, explicit header, CRC on, low-datarate-optimize set (which is
exactly what the configuration pass forces for this bandwidth/SF pair). -/
def sC2 : LoraSettings :=
  { bandwidth := 0, datarate := 12, coderate := 1, preamble_len := 8,
    implicit_header := false, crc_on := true, freq_hop_on := false,
    hop_period := 0, iq_inverted := false, power := 14, tx_timeout := 1000,
    rx_timeout := 100, rx_continuous := false, low_datarate_optimize := 1,
    payload_len := 0 }

end SX1272

namespace SX1272

/-! Theorems. -/

/-- Claim C1 (code bug exhibit): with the operating-mode register reading
0x80 (long-range-mode bit set, mode field Sleep), requesting Standby makes
sx1272_set_op_mode write the byte 0x01 - the requested mode alone.  The
previously read long-range-mode bit (set) is not preserved: a write
preserving all bits outside the mode field would store 0x81.  The merge
expression of the source is vacuous because op_mode_prev was already
masked with the complement of the same mask. -/
theorem C1_opmode_write_drops_longrange_bit :
    (sx1272_set_op_mode devC1 RF_OPMODE_STANDBY).2 = [(REG_OPMODE, 0x01)]
    ∧ sx1272_reg_read devC1 REG_OPMODE &&& RFLR_OPMODE_LONGRANGEMODE_ON = 0x80
    ∧ 0x01 &&& RFLR_OPMODE_LONGRANGEMODE_ON = 0
    ∧ ((sx1272_reg_read devC1 REG_OPMODE &&& RF_OPMODE_MASK) ||| RF_OPMODE_STANDBY) = 0x81 := by
  refine ⟨?_, by decide, by decide, by decide⟩
  decide

/-- Claim C3 counterexample: on devC3 the DIO4 pin is connected and its
callback enabled; after a transition into Sleep the callback of DIO4 is
still enabled, contradicting the claim that Sleep disables the callback on
every configured DIO line DIO0 through DIO5. -/
theorem C3_sleep_leaves_dio4_enabled :
    devC3.dio4_conn = true ∧ devC3.dio4_en = true
    ∧ (sx1272_set_op_mode devC3 RF_OPMODE_SLEEP).1.dio4_en = true := by
  refine ⟨rfl, rfl, ?_⟩
  decide

/-- Claim C3 (amended): a transition into Sleep disables the GPIO callback
on each connected line among DIO0..DIO3 and drives the RF switch to its
disabled bias per the configured polarity; a transition into any non-Sleep
mode enables the callback on each connected line among DIO0..DIO3 and
drives the enabled bias.  DIO4 and DIO5 callbacks are never touched. -/
theorem C3_mode_transition_dio_rfswitch (dev : Dev) (op_mode : Nat) :
    (sx1272_set_op_mode dev op_mode).1.dio0_en =
      (if op_mode = RF_OPMODE_SLEEP then (if dev.dio0_conn then false else dev.dio0_en)
       else (if dev.dio0_conn then true else dev.dio0_en))
    ∧ (sx1272_set_op_mode dev op_mode).1.dio1_en =
      (if op_mode = RF_OPMODE_SLEEP then (if dev.dio1_conn then false else dev.dio1_en)
       else (if dev.dio1_conn then true else dev.dio1_en))
    ∧ (sx1272_set_op_mode dev op_mode).1.dio2_en =
      (if op_mode = RF_OPMODE_SLEEP then (if dev.dio2_conn then false else dev.dio2_en)
       else (if dev.dio2_conn then true else dev.dio2_en))
    ∧ (sx1272_set_op_mode dev op_mode).1.dio3_en =
      (if op_mode = RF_OPMODE_SLEEP then (if dev.dio3_conn then false else dev.dio3_en)
       else (if dev.dio3_conn then true else dev.dio3_en))
    ∧ (sx1272_set_op_mode dev op_mode).1.dio4_en = dev.dio4_en
    ∧ (sx1272_set_op_mode dev op_mode).1.dio5_en = dev.dio5_en
    ∧ (sx1272_set_op_mode dev op_mode).1.rfswitch_level =
      (if dev.rfswitch_conn then
        (if op_mode = RF_OPMODE_SLEEP then dev.rfswitch_active_low
         else !dev.rfswitch_active_low)
       else dev.rfswitch_level) := by
  by_cases hM : op_mode = RF_OPMODE_SLEEP <;>
    simp only [sx1272_set_op_mode, applyModeIrqRfswitch, devWrite, hM,
      if_true, if_false, ite_true, ite_false] <;>
    split <;>
    simp

/-- Claim C8: requesting the mode whose bits are already in the
operating-mode register performs no register write and leaves the register
file untouched, while the DIO-enable/RF-switch side effects of the
requested mode (lines 865-908) are still applied to the device. -/
theorem C8_mode_write_suppression (dev : Dev) (op_mode : Nat)
    (h : op_mode = sx1272_reg_read dev REG_OPMODE &&& (255 ^^^ RF_OPMODE_MASK)) :
    sx1272_set_op_mode dev op_mode = (applyModeIrqRfswitch dev op_mode, []) := by
  simp [sx1272_set_op_mode, h]

/-- Claim C8 witness: on a device whose operating-mode register reads 0x81
(long-range on, Standby), requesting Standby issues no write and applies
the non-sleep side effects. -/
theorem C8_mode_write_suppression_witness :
    sx1272_set_op_mode devC8 RF_OPMODE_STANDBY
      = (applyModeIrqRfswitch devC8 RF_OPMODE_STANDBY, []) :=
  C8_mode_write_suppression devC8 RF_OPMODE_STANDBY (by decide)

/-- Helper: the payload-CRC-error flag (bit 5) survives the handler's
preceding write-to-clear of the receive-done flag (bit 6). -/
theorem crc_bit_survives_rxdone_clear :
    ∀ y < 256, y &&& 0x20 = 0x20 → ((y &&& (255 ^^^ 0x40)) % 256) &&& 0x20 = 0x20 := by
  decide

/-- Claim C4 counterexample: on a device in TxRunning with the TX deadline
timer armed, the driver's own TX deadline-timer callback fires, but the
logical state stays TxRunning (not Idle) and no timer is cancelled; only
the TxTimeout event is sent.  This contradicts the claim that every
timeout condition - including the driver's own deadline timer firing -
terminates the operation by setting the state to Idle and cancelling the
armed timers. -/
theorem C4_tx_deadline_timer_keeps_state :
    devC4.state = RadioState.RF_TX_RUNNING ∧ devC4.tx_timer_armed = true
    ∧ (on_tx_timeout_timer devC4).1.state = RadioState.RF_TX_RUNNING
    ∧ (on_tx_timeout_timer devC4).1.tx_timer_armed = true
    ∧ (on_tx_timeout_timer devC4).2 = [Event.TX_TIMEOUT] :=
  ⟨rfl, rfl, rfl, rfl, rfl⟩

/-- Claim C4 (amended): chip-reported terminal conditions terminate the
operation and are reported exactly once - the DIO0 CRC-error branch
cancels the RX timer, sets the state to Idle unless continuous receive,
leaves the TX timer as it was, and sends exactly one RxError(Crc) event;
the DIO1 RX-timeout handler (LoRa receive running) cancels the RX timer,
sets the state to Idle, and sends exactly one RxTimeout event.  The
driver's own deadline-timer callbacks send exactly one corresponding
timeout event but leave the logical state and both timers unchanged. -/
theorem C4_terminal_events (dev : Dev) :
    (on_tx_timeout_timer dev = (dev, [Event.TX_TIMEOUT]))
    ∧ (on_rx_timeout_timer dev = (dev, [Event.RX_TIMEOUT]))
    ∧ (dev.state = RadioState.RF_RX_RUNNING → dev.modem = Modem.LORA →
        sx1272_on_dio1 dev =
          ({ dev with rx_timer_armed := false, state := RadioState.RF_IDLE },
            [Event.RX_TIMEOUT]))
    ∧ (dev.state = RadioState.RF_RX_RUNNING → dev.modem = Modem.LORA →
        sx1272_reg_read dev REG_LR_IRQFLAGS &&& RFLR_IRQFLAGS_PAYLOADCRCERROR
          = RFLR_IRQFLAGS_PAYLOADCRCERROR →
        ((sx1272_on_dio0 dev).2 = [Event.RX_ERROR_CRC]
          ∧ (sx1272_on_dio0 dev).1.state =
              (if dev.lora.rx_continuous then RadioState.RF_RX_RUNNING
               else RadioState.RF_IDLE)
          ∧ (sx1272_on_dio0 dev).1.rx_timer_armed = false
          ∧ (sx1272_on_dio0 dev).1.tx_timer_armed = dev.tx_timer_armed)) := by
  refine ⟨rfl, rfl, ?_, ?_⟩
  · intro h1 h2
    simp [sx1272_on_dio1, h1, h2]
  · intro h1 h2 h3
    have hy : dev.regs REG_LR_IRQFLAGS % 256 < 256 := Nat.mod_lt _ (by norm_num)
    have hcrc := crc_bit_survives_rxdone_clear (dev.regs REG_LR_IRQFLAGS % 256) hy
      (by simpa [sx1272_reg_read, RFLR_IRQFLAGS_PAYLOADCRCERROR] using h3)
    simp only [sx1272_on_dio0, h1, h2, devWrite, regWrite, sx1272_reg_read,
      RFLR_IRQFLAGS_PAYLOADCRCERROR_MASK, RFLR_IRQFLAGS_PAYLOADCRCERROR,
      RFLR_IRQFLAGS_RXDONE, REG_LR_IRQFLAGS]
    norm_num
    rw [if_pos (by simpa using hcrc)]
    by_cases hc : dev.lora.rx_continuous <;> simp [hc]

/-- Claim C4 witness: on a LoRa device in a running receive with the RX
timer armed and the CRC-error flag set, the DIO1 handler terminates into
Idle with one RxTimeout event, and the DIO0 handler sends exactly one
RxError(Crc) event. -/
theorem C4_terminal_events_witness :
    sx1272_on_dio1 devC4w =
      ({ devC4w with rx_timer_armed := false, state := RadioState.RF_IDLE },
        [Event.RX_TIMEOUT])
    ∧ (sx1272_on_dio0 devC4w).2 = [Event.RX_ERROR_CRC] := by
  have h := C4_terminal_events devC4w
  exact ⟨h.2.2.1 rfl rfl, (h.2.2.2 rfl rfl (by decide)).1⟩

/-- Helper: the boosted-path select bit is always read back as set after
being merged in. -/
theorem pa_boost_test : ∀ x < 256, ((x &&& 0x7F) ||| 0x80) &&& 0x80 = 0x80 := by
  decide

/-- Helper: the select bit stays clear on the RF-output path. -/
theorem pa_rfo_test : ∀ x < 256, ¬((x &&& 0x7F) &&& 0x80 = 0x80) := by
  decide

/-- Helper: the +20 dBm stage bits read back as enabled after being set. -/
theorem dac_on_test : ∀ y < 256, ((y &&& 0xF8) ||| 7) &&& 7 = 7 := by
  decide

/-- Helper: the +20 dBm stage bits read back as disabled after being
cleared. -/
theorem dac_off_test : ∀ y < 256, ¬(((y &&& 0xF8) ||| 4) &&& 7 = 7) := by
  decide

/-- Helper: the mode side effects do not touch the settings record or the
channel. -/
theorem applyModeIrqRfswitch_frame (dev : Dev) (m : Nat) :
    (applyModeIrqRfswitch dev m).lora = dev.lora
    ∧ (applyModeIrqRfswitch dev m).channel = dev.channel := by
  unfold applyModeIrqRfswitch
  split <;> exact ⟨rfl, rfl⟩

/-- Helper: a mode transition does not touch the settings record or the
channel. -/
theorem set_op_mode_frame (dev : Dev) (m : Nat) :
    ((sx1272_set_op_mode dev m).1).lora = dev.lora
    ∧ ((sx1272_set_op_mode dev m).1).channel = dev.channel := by
  unfold sx1272_set_op_mode
  refine ⟨?_, ?_⟩ <;>
    simp only [(applyModeIrqRfswitch_frame _ _).1, (applyModeIrqRfswitch_frame _ _).2] <;>
    split <;> rfl

/-- Helper: selecting the modem does not touch the settings record or the
channel. -/
theorem set_modem_frame (dev : Dev) (m : Modem) :
    (sx1272_set_modem dev m).lora = dev.lora
    ∧ (sx1272_set_modem dev m).channel = dev.channel := by
  cases m <;>
    simp only [sx1272_set_modem, devWrite] <;>
    exact ⟨((set_op_mode_frame _ _).1 : _), ((set_op_mode_frame _ _).2 : _)⟩

/-- Helper: the PA policy rewrites the settings record only at the power
field, which it replaces by the clamped power of the amplifier path chosen
from the channel. -/
theorem setup_pa_lora (d : Dev) :
    (setup_power_amplifier d).lora =
      { d.lora with power := paClampedPower d.channel d.lora.power } := by
  have hx : sx1272_reg_read d REG_PACONFIG < 256 := Nat.mod_lt _ (by norm_num)
  have hy : sx1272_reg_read d REG_PADAC < 256 := Nat.mod_lt _ (by norm_num)
  by_cases hch : d.channel < SX1272_RF_MID_BAND_THRESH
  · by_cases hp : d.lora.power > 17
    · simp only [setup_power_amplifier, sx1272_get_pa_select, hch, hp, if_true,
        RF_PACONFIG_PASELECT_MASK, RF_PACONFIG_PASELECT_PABOOST,
        RF_PADAC_20DBM_MASK, RFLR_PADAC_20DBM_ON, RFLR_PACONFIG_OUTPUTPOWER_MASK,
        devWrite]
      rw [if_pos (pa_boost_test _ hx), if_pos (dac_on_test _ hy)]
      simp only [paClampedPower, hch, hp, if_true]
      simp only [LoraSettings.mk.injEq, and_true, true_and]
      omega
    · simp only [setup_power_amplifier, sx1272_get_pa_select, hch, hp, if_true,
        if_false, RF_PACONFIG_PASELECT_MASK, RF_PACONFIG_PASELECT_PABOOST,
        RF_PADAC_20DBM_MASK, RFLR_PADAC_20DBM_ON, RFLR_PADAC_20DBM_OFF,
        RFLR_PACONFIG_OUTPUTPOWER_MASK, devWrite]
      rw [if_pos (pa_boost_test _ hx), if_neg (dac_off_test _ hy)]
      simp only [paClampedPower, hch, hp, if_true, if_false]
      simp only [LoraSettings.mk.injEq, and_true, true_and]
      omega
  · simp only [setup_power_amplifier, sx1272_get_pa_select, hch, if_false,
      RF_PACONFIG_PASELECT_MASK, RF_PACONFIG_PASELECT_PABOOST,
      RF_PACONFIG_PASELECT_RFO, RFLR_PACONFIG_OUTPUTPOWER_MASK, devWrite,
      Nat.or_zero]
    rw [if_neg (pa_rfo_test _ hx)]
    simp only [paClampedPower, hch, if_false]
    simp only [LoraSettings.mk.injEq, and_true, true_and]
    omega

/-- Helper: the whole configuration pass rewrites the settings record
exactly at the recomputed low-datarate-optimize flag and the clamped
power, starting from the copied record when one was passed. -/
theorem configure_lora_settings_eq (dev : Dev) (settings : Option LoraSettings) :
    (sx1272_configure_lora dev settings).lora =
      { settings.getD dev.lora with
          low_datarate_optimize :=
            if (((settings.getD dev.lora).bandwidth = SX1272_BW_125_KHZ
                  ∧ ((settings.getD dev.lora).datarate = SX1272_SF11
                     ∨ (settings.getD dev.lora).datarate = SX1272_SF12))
                ∨ ((settings.getD dev.lora).bandwidth = SX1272_BW_250_KHZ
                  ∧ (settings.getD dev.lora).datarate = SX1272_SF12))
            then 1 else 0
          power := paClampedPower dev.channel (settings.getD dev.lora).power } := by
  cases settings <;>
    simp only [sx1272_configure_lora, Option.getD, devWrite] <;>
    rw [setup_pa_lora] <;>
    simp [apply_ite Dev.lora, apply_ite Dev.channel,
      (set_modem_frame _ _).1, (set_modem_frame _ _).2]

/-- Claim C2 (code bug exhibit): with 125 kHz bandwidth, SF12,
low-datarate-optimize set, CRC on, explicit header, coding rate 1,
preamble length 8 and a 20-byte payload, the code computes 1155072 us
(payload-symbol denominator 4 times SF minus 2, here 46) while the
formula the claim states - denominator 4 times (SF minus 2 times the
flag), here 40 - gives 1318912 us.  The FSK path returns 0 as claimed. -/
theorem C2_time_on_air_denominator :
    sx1272_get_time_on_air sC2 Modem.LORA 20 = 1155072
    ∧ get_time_on_air_spec sC2 Modem.LORA 20 = 1318912
    ∧ sx1272_get_time_on_air sC2 Modem.FSK 20 = 0 := by
  refine ⟨?_, ?_, rfl⟩
  · have hc : ⌈(68:ℚ)/23⌉ = (3:Int) := by
      rw [Int.ceil_eq_iff]; norm_num
    norm_num [sx1272_get_time_on_air, sC2, hc]
  · have hc : ⌈(17:ℚ)/5⌉ = (4:Int) := by
      rw [Int.ceil_eq_iff]; norm_num
    norm_num [get_time_on_air_spec, sC2, hc]

/-- Claim C5: after any configuration pass - with an explicit settings
record or through any of the per-field setters - the stored
low-datarate-optimize flag is 1 exactly when (bandwidth = 125 kHz and
SF in 11..12) or (bandwidth = 250 kHz and SF = 12), and 0 otherwise. -/
theorem C5_low_datarate_optimize_recompute (dev : Dev) (settings : Option LoraSettings) :
    ((sx1272_configure_lora dev settings).lora.low_datarate_optimize =
      if (((settings.getD dev.lora).bandwidth = SX1272_BW_125_KHZ
            ∧ ((settings.getD dev.lora).datarate = SX1272_SF11
               ∨ (settings.getD dev.lora).datarate = SX1272_SF12))
          ∨ ((settings.getD dev.lora).bandwidth = SX1272_BW_250_KHZ
            ∧ (settings.getD dev.lora).datarate = SX1272_SF12))
      then 1 else 0)
    ∧ (∀ b, (sx1272_configure_lora_bw dev b).lora.low_datarate_optimize =
        if ((b = SX1272_BW_125_KHZ
              ∧ (dev.lora.datarate = SX1272_SF11 ∨ dev.lora.datarate = SX1272_SF12))
            ∨ (b = SX1272_BW_250_KHZ ∧ dev.lora.datarate = SX1272_SF12))
        then 1 else 0)
    ∧ (∀ sf, (sx1272_configure_lora_sf dev sf).lora.low_datarate_optimize =
        if ((dev.lora.bandwidth = SX1272_BW_125_KHZ
              ∧ (sf = SX1272_SF11 ∨ sf = SX1272_SF12))
            ∨ (dev.lora.bandwidth = SX1272_BW_250_KHZ ∧ sf = SX1272_SF12))
        then 1 else 0)
    ∧ (∀ cr, (sx1272_configure_lora_cr dev cr).lora.low_datarate_optimize =
        if ((dev.lora.bandwidth = SX1272_BW_125_KHZ
              ∧ (dev.lora.datarate = SX1272_SF11 ∨ dev.lora.datarate = SX1272_SF12))
            ∨ (dev.lora.bandwidth = SX1272_BW_250_KHZ ∧ dev.lora.datarate = SX1272_SF12))
        then 1 else 0) := by
  refine ⟨?_, ?_, ?_, ?_⟩
  · rw [configure_lora_settings_eq]
  · intro b
    simp only [sx1272_configure_lora_bw]
    rw [configure_lora_settings_eq]
    simp
  · intro sf
    simp only [sx1272_configure_lora_sf]
    rw [configure_lora_settings_eq]
    simp
  · intro cr
    simp only [sx1272_configure_lora_cr]
    rw [configure_lora_settings_eq]
    simp

/-- Claim C10: a configuration pass with a NULL settings pointer leaves
every field of the stored LoRa settings record unchanged except the
recomputed low-datarate-optimize flag and the clamped transmit power; and
each per-field setter is, definitionally, the full configuration pass
re-run on the record with exactly its one field changed. -/
theorem C10_configure_null_frame (dev : Dev) :
    ((sx1272_configure_lora dev none).lora.bandwidth = dev.lora.bandwidth
      ∧ (sx1272_configure_lora dev none).lora.datarate = dev.lora.datarate
      ∧ (sx1272_configure_lora dev none).lora.coderate = dev.lora.coderate
      ∧ (sx1272_configure_lora dev none).lora.preamble_len = dev.lora.preamble_len
      ∧ (sx1272_configure_lora dev none).lora.implicit_header = dev.lora.implicit_header
      ∧ (sx1272_configure_lora dev none).lora.crc_on = dev.lora.crc_on
      ∧ (sx1272_configure_lora dev none).lora.freq_hop_on = dev.lora.freq_hop_on
      ∧ (sx1272_configure_lora dev none).lora.hop_period = dev.lora.hop_period
      ∧ (sx1272_configure_lora dev none).lora.iq_inverted = dev.lora.iq_inverted
      ∧ (sx1272_configure_lora dev none).lora.tx_timeout = dev.lora.tx_timeout
      ∧ (sx1272_configure_lora dev none).lora.rx_timeout = dev.lora.rx_timeout
      ∧ (sx1272_configure_lora dev none).lora.rx_continuous = dev.lora.rx_continuous
      ∧ (sx1272_configure_lora dev none).lora.payload_len = dev.lora.payload_len)
    ∧ (sx1272_configure_lora dev none).lora.power
        = paClampedPower dev.channel dev.lora.power
    ∧ (∀ b, sx1272_configure_lora_bw dev b =
        sx1272_configure_lora { dev with lora := { dev.lora with bandwidth := b } } none)
    ∧ (∀ sf, sx1272_configure_lora_sf dev sf =
        sx1272_configure_lora { dev with lora := { dev.lora with datarate := sf } } none)
    ∧ (∀ cr, sx1272_configure_lora_cr dev cr =
        sx1272_configure_lora { dev with lora := { dev.lora with coderate := cr } } none) := by
  refine ⟨?_, ?_, fun _ => rfl, fun _ => rfl, fun _ => rfl⟩
  · rw [configure_lora_settings_eq]
    exact ⟨rfl, rfl, rfl, rfl, rfl, rfl, rfl, rfl, rfl, rfl, rfl, rfl, rfl⟩
  · rw [configure_lora_settings_eq]
    simp

/-- Helper: low nibble of a value below 16. -/
theorem land15_id : ∀ z < 16, z &&& 15 = z := by
  decide

/-- Helper: the 4-bit encoding steps (cast to uint16, mask to the nibble)
are the identity on an offset power already clamped into the nibble
range. -/
theorem encode_nibble (p c : Int) (h0 : c ≤ p) (h15 : p ≤ c + 15) :
    (((p - c) % 65536).toNat &&& 15) = (p - c).toNat := by
  have h1 : (p - c) % 65536 = p - c := by omega
  have h2 : (p - c).toNat < 16 := by omega
  rw [h1, land15_id _ h2]

/-- Helper: same identity for the RF-output-path encoding power plus 1. -/
theorem encode_nibble_plus (p : Int) (h0 : -1 ≤ p) (h15 : p ≤ 14) :
    (((p + 1) % 65536).toNat &&& 15) = (p + 1).toNat := by
  have h1 : (p + 1) % 65536 = p + 1 := by omega
  have h2 : (p + 1).toNat < 16 := by omega
  rw [h1, land15_id _ h2]

/-- Helper: boosted-path PaConfig byte with a zero nibble (the encoded
zero is absorbed by simp), select bit set, low nibble zero. -/
theorem cfg_boost_read0 : ∀ x < 256,
    ((((x &&& 0x7F) ||| 0x80) &&& 0xF0) % 256 &&& 0x80 = 0x80)
    ∧ ((((x &&& 0x7F) ||| 0x80) &&& 0xF0) % 256 &&& 0x0F = 0) := by
  decide

/-- Helper: RF-output-path PaConfig byte with a zero nibble. -/
theorem cfg_rfo_read0 : ∀ x < 256,
    (((x &&& 0x7F) &&& 0xF0) % 256 &&& 0x80 = 0)
    ∧ (((x &&& 0x7F) &&& 0xF0) % 256 &&& 0x0F = 0) := by
  decide

/-- Helper: boosted-path PaConfig byte - select bit set, low nibble is the
encoded power. -/
theorem cfg_boost_read : ∀ x < 256, ∀ e < 16,
    (((((x &&& 0x7F) ||| 0x80) &&& 0xF0) ||| e) % 256 &&& 0x80 = 0x80)
    ∧ (((((x &&& 0x7F) ||| 0x80) &&& 0xF0) ||| e) % 256 &&& 0x0F = e) := by
  decide

/-- Helper: RF-output-path PaConfig byte - select bit clear, low nibble is
the encoded power. -/
theorem cfg_rfo_read : ∀ x < 256, ∀ e < 16,
    ((((x &&& 0x7F) &&& 0xF0) ||| e) % 256 &&& 0x80 = 0)
    ∧ ((((x &&& 0x7F) &&& 0xF0) ||| e) % 256 &&& 0x0F = e) := by
  decide

/-- Helper: PaDac byte with the +20 dBm stage enabled. -/
theorem dac_on_read : ∀ y < 256, (((y &&& 0xF8) ||| 7) % 256) &&& 7 = 7 := by
  decide

/-- Helper: PaDac byte with the +20 dBm stage disabled. -/
theorem dac_off_read : ∀ y < 256, (((y &&& 0xF8) ||| 4) % 256) &&& 7 = 4 := by
  decide

/-- Helper: the select bit of a masked byte is clear (base form). -/
theorem pa_rfo_zero : ∀ x < 256, (x &&& 0x7F) &&& 0x80 = 0 := by
  decide

/-- Helper: the +20 dBm stage field reads 4 after being cleared. -/
theorem dac_off_val : ∀ y < 256, ((y &&& 0xF8) ||| 4) &&& 7 = 4 := by
  decide

/-- Helper: rewriting form of the boosted-path select test on a byte. -/
theorem pa_boost_eq_m (x : Nat) : ((x % 256 &&& 0x7F) ||| 0x80) &&& 0x80 = 0x80 :=
  pa_boost_test _ (Nat.mod_lt _ (by norm_num))

/-- Helper: rewriting form of the RF-output-path select test on a byte. -/
theorem pa_rfo_eq_m (x : Nat) : (x % 256 &&& 0x7F) &&& 0x80 = 0 :=
  pa_rfo_zero _ (Nat.mod_lt _ (by norm_num))

/-- Helper: rewriting form of the enabled +20 dBm stage test on a byte. -/
theorem dac_on_eq_m (y : Nat) : ((y % 256 &&& 0xF8) ||| 7) &&& 7 = 7 :=
  dac_on_test _ (Nat.mod_lt _ (by norm_num))

/-- Helper: rewriting form of the disabled +20 dBm stage test on a byte. -/
theorem dac_off_eq_m (y : Nat) : ((y % 256 &&& 0xF8) ||| 4) &&& 7 = 4 :=
  dac_off_val _ (Nat.mod_lt _ (by norm_num))

/-- Helper: re-running the select-and-mask step of the boosted path on its
own output byte reproduces the same upper nibble (base form). -/
theorem cfg_boost_stable : ∀ x < 256, ∀ e < 16,
    (((((x &&& 127) ||| 128) &&& 240 ||| e) % 256 &&& 127) ||| 128) &&& 240
      = ((x &&& 127) ||| 128) &&& 240 := by
  decide

/-- Helper: the same stability for a nibble written as a masked value. -/
theorem cfg_boost_stable_z (x z : Nat) :
    (((((x % 256 &&& 127) ||| 128) &&& 240 ||| (z &&& 15)) % 256 &&& 127) ||| 128) &&& 240
      = ((x % 256 &&& 127) ||| 128) &&& 240 :=
  cfg_boost_stable _ (Nat.mod_lt _ (by norm_num)) _
    (Nat.lt_succ_of_le (Nat.and_le_right))

/-- Helper: re-running the select-and-mask step of the RF-output path on
its own output byte reproduces the same upper nibble (base form). -/
theorem cfg_rfo_stable : ∀ x < 256, ∀ e < 16,
    ((((x &&& 127) &&& 240 ||| e) % 256 &&& 127)) &&& 240
      = ((x &&& 127) &&& 240) := by
  decide

/-- Helper: the same stability for a nibble written as a masked value. -/
theorem cfg_rfo_stable_z (x z : Nat) :
    ((((x % 256 &&& 127) &&& 240 ||| (z &&& 15)) % 256 &&& 127)) &&& 240
      = ((x % 256 &&& 127) &&& 240) :=
  cfg_rfo_stable _ (Nat.mod_lt _ (by norm_num)) _
    (Nat.lt_succ_of_le (Nat.and_le_right))

/-- Helper: re-masking the PaDac byte with the stage enabled is stable
(base form). -/
theorem dac_on_stable : ∀ y < 256,
    ((((y &&& 248) ||| 7) % 256) &&& 248) ||| 7 = (y &&& 248) ||| 7 := by
  decide

/-- Helper: byte form of the enabled-stage stability. -/
theorem dac_on_stable_m (y : Nat) :
    ((((y % 256 &&& 248) ||| 7) % 256) &&& 248) ||| 7 = (y % 256 &&& 248) ||| 7 :=
  dac_on_stable _ (Nat.mod_lt _ (by norm_num))

/-- Helper: re-masking the PaDac byte with the stage disabled is stable
(base form). -/
theorem dac_off_stable : ∀ y < 256,
    ((((y &&& 248) ||| 4) % 256) &&& 248) ||| 4 = (y &&& 248) ||| 4 := by
  decide

/-- Helper: byte form of the disabled-stage stability. -/
theorem dac_off_stable_m (y : Nat) :
    ((((y % 256 &&& 248) ||| 4) % 256) &&& 248) ||| 4 = (y % 256 &&& 248) ||| 4 :=
  dac_off_stable _ (Nat.mod_lt _ (by norm_num))

/-- Helper: the boosted-path PaConfig byte is a fixed point of the
select-mask-encode sequence when the same nibble is encoded again. -/
theorem cfg_boost_idem : ∀ x < 256, ∀ e < 16,
    ((((x &&& 127 ||| 128) &&& 240 ||| e) % 256 &&& 127 ||| 128) &&& 240 ||| e) % 256
      = ((x &&& 127 ||| 128) &&& 240 ||| e) % 256 := by
  decide

/-- Helper: the RF-output-path PaConfig byte is a fixed point of the
select-mask-encode sequence when the same nibble is encoded again. -/
theorem cfg_rfo_idem : ∀ x < 256, ∀ e < 16,
    (((x &&& 127 &&& 240 ||| e) % 256 &&& 127) &&& 240 ||| e) % 256
      = (x &&& 127 &&& 240 ||| e) % 256 := by
  decide

/-- Helper: zero-nibble variant of the boosted-path fixed point. -/
theorem cfg_boost_idem0 : ∀ x < 256,
    ((((x &&& 127 ||| 128) &&& 240) % 256 &&& 127 ||| 128) &&& 240) % 256
      = ((x &&& 127 ||| 128) &&& 240) % 256 := by
  decide

/-- Helper: zero-nibble variant of the RF-output-path fixed point. -/
theorem cfg_rfo_idem0 : ∀ x < 256,
    ((x &&& 127 &&& 240) % 256 &&& 127 &&& 240) % 256
      = (x &&& 127 &&& 240) % 256 := by
  decide

/-- Helper: the enabled-stage PaDac byte is a fixed point of the
mask-and-set sequence. -/
theorem dac_on_idem : ∀ y < 256,
    (((y &&& 248 ||| 7) % 256 &&& 248) ||| 7) % 256 = (y &&& 248 ||| 7) % 256 := by
  decide

/-- Helper: the disabled-stage PaDac byte is a fixed point of the
mask-and-clear sequence. -/
theorem dac_off_idem : ∀ y < 256,
    (((y &&& 248 ||| 4) % 256 &&& 248) ||| 4) % 256 = (y &&& 248 ||| 4) % 256 := by
  decide

/-- Helper: the PA policy does not touch the channel. -/
theorem setup_pa_channel (d : Dev) :
    (setup_power_amplifier d).channel = d.channel := by
  simp only [setup_power_amplifier, devWrite]
  split_ifs <;> rfl

/-- Helper: the clamp of the PA policy is idempotent. -/
theorem paClampedPower_idem (ch : Nat) (p : Int) :
    paClampedPower ch (paClampedPower ch p) = paClampedPower ch p := by
  simp only [paClampedPower]
  split_ifs <;> omega

/-- Claim C6: the PA policy selects the boosted path exactly below the
mid-band threshold; on the boosted path the +20 dBm stage is enabled
exactly when the requested power exceeds 17 dBm (and the PaDac byte is left
alone on the RF-output path); the stored power is clamped to the range of
the chosen path; and the low nibble of the written PaConfig byte encodes
the clamped power minus 5, minus 2, or plus 1 according to the path. -/
theorem C6_pa_policy (dev : Dev) :
    (sx1272_reg_read (setup_power_amplifier dev) REG_PACONFIG &&& RF_PACONFIG_PASELECT_PABOOST
      = if dev.channel < SX1272_RF_MID_BAND_THRESH then RF_PACONFIG_PASELECT_PABOOST else 0)
    ∧ (if dev.channel < SX1272_RF_MID_BAND_THRESH then
        sx1272_reg_read (setup_power_amplifier dev) REG_PADAC &&& 0x07
          = (if dev.lora.power > 17 then RFLR_PADAC_20DBM_ON else RFLR_PADAC_20DBM_OFF)
      else
        sx1272_reg_read (setup_power_amplifier dev) REG_PADAC = sx1272_reg_read dev REG_PADAC)
    ∧ (setup_power_amplifier dev).lora.power = paClampedPower dev.channel dev.lora.power
    ∧ sx1272_reg_read (setup_power_amplifier dev) REG_PACONFIG &&& 0x0F
      = Int.toNat ((setup_power_amplifier dev).lora.power -
          (if dev.channel < SX1272_RF_MID_BAND_THRESH then
            (if dev.lora.power > 17 then 5 else 2) else -1)) := by
  have hx : dev.regs 9 % 256 < 256 := Nat.mod_lt _ (by norm_num)
  have hy : dev.regs 90 % 256 < 256 := Nat.mod_lt _ (by norm_num)
  by_cases hch : dev.channel < SX1272_RF_MID_BAND_THRESH
  · by_cases hp : dev.lora.power > 17
    · simp only [setup_power_amplifier, sx1272_get_pa_select, hch, hp, if_true,
        RF_PACONFIG_PASELECT_MASK, RF_PACONFIG_PASELECT_PABOOST,
        RF_PADAC_20DBM_MASK, RFLR_PADAC_20DBM_ON, RFLR_PACONFIG_OUTPUTPOWER_MASK,
        devWrite, regWrite, sx1272_reg_read, REG_PACONFIG, REG_PADAC,
        REG_LR_IRQFLAGS, paClampedPower]
      rw [if_pos (pa_boost_test _ hx), if_pos (dac_on_test _ hy)]
      rw [if_neg (show ¬dev.lora.power < 5 by omega)]
      by_cases h20 : dev.lora.power > 20
      · rw [if_pos h20]
        refine ⟨?_, ?_, ?_, ?_⟩
        · norm_num [regWrite, REG_LR_IRQFLAGS]
          exact (cfg_boost_read _ hx 15 (by norm_num)).1
        · norm_num [regWrite, REG_LR_IRQFLAGS]
          exact dac_on_read _ hy
        · norm_num [regWrite, REG_LR_IRQFLAGS]
          omega
        · norm_num [regWrite, REG_LR_IRQFLAGS]
          exact ((cfg_boost_read _ hx 15 (by norm_num)).2).trans (by decide)
      · rw [if_neg h20]
        rw [encode_nibble dev.lora.power 5 (by omega) (by omega)]
        refine ⟨?_, ?_, ?_, ?_⟩
        · norm_num [regWrite, REG_LR_IRQFLAGS]
          exact (cfg_boost_read _ hx _ (by omega)).1
        · norm_num [regWrite, REG_LR_IRQFLAGS]
          exact dac_on_read _ hy
        · norm_num [regWrite, REG_LR_IRQFLAGS]
          omega
        · norm_num [regWrite, REG_LR_IRQFLAGS]
          exact (cfg_boost_read _ hx _ (by omega)).2
    · simp only [setup_power_amplifier, sx1272_get_pa_select, hch, hp, if_true,
        if_false, RF_PACONFIG_PASELECT_MASK, RF_PACONFIG_PASELECT_PABOOST,
        RF_PADAC_20DBM_MASK, RFLR_PADAC_20DBM_ON, RFLR_PADAC_20DBM_OFF,
        RFLR_PACONFIG_OUTPUTPOWER_MASK, devWrite, regWrite, sx1272_reg_read,
        REG_PACONFIG, REG_PADAC, REG_LR_IRQFLAGS, paClampedPower]
      rw [if_pos (pa_boost_test _ hx), if_neg (dac_off_test _ hy)]
      rw [if_neg (show ¬(if dev.lora.power < 2 then (2:Int) else dev.lora.power) > 17 by
        split_ifs <;> omega)]
      by_cases h2 : dev.lora.power < 2
      · rw [if_pos h2]
        refine ⟨?_, ?_, ?_, ?_⟩
        · norm_num [regWrite, REG_LR_IRQFLAGS]
          exact (cfg_boost_read0 _ hx).1
        · norm_num [regWrite, REG_LR_IRQFLAGS]
          exact dac_off_read _ hy
        · norm_num [regWrite, REG_LR_IRQFLAGS]
          omega
        · norm_num [regWrite, REG_LR_IRQFLAGS]
          exact ((cfg_boost_read0 _ hx).2).trans (by decide)
      · rw [if_neg h2]
        rw [encode_nibble dev.lora.power 2 (by omega) (by omega)]
        refine ⟨?_, ?_, ?_, ?_⟩
        · norm_num [regWrite, REG_LR_IRQFLAGS]
          exact (cfg_boost_read _ hx _ (by omega)).1
        · norm_num [regWrite, REG_LR_IRQFLAGS]
          exact dac_off_read _ hy
        · norm_num [regWrite, REG_LR_IRQFLAGS]
          omega
        · norm_num [regWrite, REG_LR_IRQFLAGS]
          exact (cfg_boost_read _ hx _ (by omega)).2
  · simp only [setup_power_amplifier, sx1272_get_pa_select, hch, if_false,
      RF_PACONFIG_PASELECT_MASK, RF_PACONFIG_PASELECT_PABOOST,
      RF_PACONFIG_PASELECT_RFO, RFLR_PACONFIG_OUTPUTPOWER_MASK,
      devWrite, regWrite, sx1272_reg_read, REG_PACONFIG, REG_PADAC,
      REG_LR_IRQFLAGS, paClampedPower, Nat.or_zero]
    rw [if_neg (pa_rfo_test _ hx)]
    by_cases hm1 : dev.lora.power < -1
    · rw [if_pos hm1]
      rw [if_neg (show ¬(-1 : Int) > 14 by norm_num)]
      refine ⟨?_, ?_, ?_, ?_⟩
      · norm_num [regWrite, REG_LR_IRQFLAGS]
        exact (cfg_rfo_read0 _ hx).1
      · norm_num [regWrite, REG_LR_IRQFLAGS]
      · norm_num [regWrite, REG_LR_IRQFLAGS]
        omega
      · norm_num [regWrite, REG_LR_IRQFLAGS]
        exact ((cfg_rfo_read0 _ hx).2).trans (by decide)
    · rw [if_neg hm1]
      by_cases h14 : dev.lora.power > 14
      · rw [if_pos h14]
        refine ⟨?_, ?_, ?_, ?_⟩
        · norm_num [regWrite, REG_LR_IRQFLAGS]
          exact (cfg_rfo_read _ hx 15 (by norm_num)).1
        · norm_num [regWrite, REG_LR_IRQFLAGS]
        · norm_num [regWrite, REG_LR_IRQFLAGS]
          omega
        · norm_num [regWrite, REG_LR_IRQFLAGS]
          exact ((cfg_rfo_read _ hx 15 (by norm_num)).2).trans (by decide)
      · rw [if_neg h14]
        rw [encode_nibble_plus dev.lora.power (by omega) (by omega)]
        refine ⟨?_, ?_, ?_, ?_⟩
        · norm_num [regWrite, REG_LR_IRQFLAGS]
          exact (cfg_rfo_read _ hx _ (by omega)).1
        · norm_num [regWrite, REG_LR_IRQFLAGS]
        · norm_num [regWrite, REG_LR_IRQFLAGS]
          omega
        · norm_num [regWrite, REG_LR_IRQFLAGS]
          exact (cfg_rfo_read _ hx _ (by omega)).2

/-- Claim C7: the PA policy is idempotent - running it a second time on
the device it produced (whose stored power is already clamped) yields the
same PaConfig byte (same select bit and encoded output-power nibble), the
same PaDac byte (same +20 dBm stage decision) and the same stored power. -/
theorem C7_pa_policy_idempotent (dev : Dev) :
    (setup_power_amplifier (setup_power_amplifier dev)).lora.power
      = (setup_power_amplifier dev).lora.power
    ∧ sx1272_reg_read (setup_power_amplifier (setup_power_amplifier dev)) REG_PACONFIG
      = sx1272_reg_read (setup_power_amplifier dev) REG_PACONFIG
    ∧ sx1272_reg_read (setup_power_amplifier (setup_power_amplifier dev)) REG_PADAC
      = sx1272_reg_read (setup_power_amplifier dev) REG_PADAC := by
  refine ⟨?_, ?_⟩
  · simp [setup_pa_lora, setup_pa_channel, paClampedPower_idem]
  · by_cases hch : dev.channel < SX1272_RF_MID_BAND_THRESH
    · by_cases hp : dev.lora.power > 17
      · have h5 : ¬dev.lora.power < 5 := by omega
        by_cases h20 : dev.lora.power > 20
        · simp [setup_power_amplifier, sx1272_get_pa_select, hch, hp, h5, h20,
            RF_PACONFIG_PASELECT_MASK, RF_PACONFIG_PASELECT_PABOOST,
            RF_PADAC_20DBM_MASK, RFLR_PADAC_20DBM_ON,
            RFLR_PACONFIG_OUTPUTPOWER_MASK, devWrite, regWrite, sx1272_reg_read,
            REG_PACONFIG, REG_PADAC, REG_LR_IRQFLAGS, pa_boost_eq_m, dac_on_eq_m]
          constructor
          · exact cfg_boost_idem _ (Nat.mod_lt _ (by norm_num)) 15 (by norm_num)
          · exact dac_on_idem _ (Nat.mod_lt _ (by norm_num))
        · simp [setup_power_amplifier, sx1272_get_pa_select, hch, hp, h5, h20,
            RF_PACONFIG_PASELECT_MASK, RF_PACONFIG_PASELECT_PABOOST,
            RF_PADAC_20DBM_MASK, RFLR_PADAC_20DBM_ON,
            RFLR_PACONFIG_OUTPUTPOWER_MASK, devWrite, regWrite, sx1272_reg_read,
            REG_PACONFIG, REG_PADAC, REG_LR_IRQFLAGS, pa_boost_eq_m, dac_on_eq_m]
          constructor
          · exact cfg_boost_idem _ (Nat.mod_lt _ (by norm_num)) _
              (Nat.lt_succ_of_le (Nat.and_le_right))
          · exact dac_on_idem _ (Nat.mod_lt _ (by norm_num))
      · have h17b : ¬(if dev.lora.power < 2 then (2:Int) else dev.lora.power) > 17 := by
          split_ifs <;> omega
        by_cases h2 : dev.lora.power < 2
        · simp [setup_power_amplifier, sx1272_get_pa_select, hch, hp, h17b, h2,
            RF_PACONFIG_PASELECT_MASK, RF_PACONFIG_PASELECT_PABOOST,
            RF_PADAC_20DBM_MASK, RFLR_PADAC_20DBM_ON, RFLR_PADAC_20DBM_OFF,
            RFLR_PACONFIG_OUTPUTPOWER_MASK, devWrite, regWrite, sx1272_reg_read,
            REG_PACONFIG, REG_PADAC, REG_LR_IRQFLAGS, pa_boost_eq_m, dac_off_eq_m]
          constructor
          · exact cfg_boost_idem0 _ (Nat.mod_lt _ (by norm_num))
          · exact dac_off_idem _ (Nat.mod_lt _ (by norm_num))
        · simp [setup_power_amplifier, sx1272_get_pa_select, hch, hp, h17b, h2,
            RF_PACONFIG_PASELECT_MASK, RF_PACONFIG_PASELECT_PABOOST,
            RF_PADAC_20DBM_MASK, RFLR_PADAC_20DBM_ON, RFLR_PADAC_20DBM_OFF,
            RFLR_PACONFIG_OUTPUTPOWER_MASK, devWrite, regWrite, sx1272_reg_read,
            REG_PACONFIG, REG_PADAC, REG_LR_IRQFLAGS, pa_boost_eq_m, dac_off_eq_m]
          constructor
          · exact cfg_boost_idem _ (Nat.mod_lt _ (by norm_num)) _
              (Nat.lt_succ_of_le (Nat.and_le_right))
          · exact dac_off_idem _ (Nat.mod_lt _ (by norm_num))
    · by_cases hm1 : dev.lora.power < -1
      · simp [setup_power_amplifier, sx1272_get_pa_select, hch, hm1,
          RF_PACONFIG_PASELECT_MASK, RF_PACONFIG_PASELECT_PABOOST,
          RF_PACONFIG_PASELECT_RFO, RFLR_PACONFIG_OUTPUTPOWER_MASK,
          devWrite, regWrite, sx1272_reg_read,
          REG_PACONFIG, REG_PADAC, REG_LR_IRQFLAGS, pa_rfo_eq_m]
        exact cfg_rfo_idem0 _ (Nat.mod_lt _ (by norm_num))
      · by_cases h14 : dev.lora.power > 14
        · simp [setup_power_amplifier, sx1272_get_pa_select, hch, hm1, h14,
            RF_PACONFIG_PASELECT_MASK, RF_PACONFIG_PASELECT_PABOOST,
            RF_PACONFIG_PASELECT_RFO, RFLR_PACONFIG_OUTPUTPOWER_MASK,
            devWrite, regWrite, sx1272_reg_read,
            REG_PACONFIG, REG_PADAC, REG_LR_IRQFLAGS, pa_rfo_eq_m]
          exact cfg_rfo_idem _ (Nat.mod_lt _ (by norm_num)) 15 (by norm_num)
        · simp [setup_power_amplifier, sx1272_get_pa_select, hch, hm1, h14,
            RF_PACONFIG_PASELECT_MASK, RF_PACONFIG_PASELECT_PABOOST,
            RF_PACONFIG_PASELECT_RFO, RFLR_PACONFIG_OUTPUTPOWER_MASK,
            devWrite, regWrite, sx1272_reg_read,
            REG_PACONFIG, REG_PADAC, REG_LR_IRQFLAGS, pa_rfo_eq_m]
          exact cfg_rfo_idem _ (Nat.mod_lt _ (by norm_num)) _
            (Nat.lt_succ_of_le (Nat.and_le_right))

/-- Claim C9 (code bug exhibit): on a device whose IRQ-flags register shows
a completed detection (CadDetected and CadDone both set), the DIO3 handler
caches false in is_last_cad_success - not the true detection condition -
because it clears both CAD flags before reading the register back; it sends
exactly one CadDone event.  The DIO4 handler performs the identical
register handling (same always-false cache) and sends CadDetected. -/
theorem C9_cad_cache_always_false :
    (sx1272_reg_read devC9 REG_LR_IRQFLAGS &&& RFLR_IRQFLAGS_CADDETECTED
      = RFLR_IRQFLAGS_CADDETECTED)
    ∧ (sx1272_on_dio3 devC9).1.is_last_cad_success = false
    ∧ (sx1272_on_dio3 devC9).2 = [Event.CAD_DONE]
    ∧ (sx1272_on_dio4 devC9).1.is_last_cad_success = false
    ∧ (sx1272_on_dio4 devC9).2 = [Event.CAD_DETECTED] := by
  refine ⟨by decide, by decide, rfl, by decide, rfl⟩

end SX1272
